import Mathlib

/-!
Verification of the Mythos Engine generation pipeline against its specification.

This file shallowly embeds the pipeline components of the repository:

* the rate limiter (`lib/rate-limiter.ts`): `isAllowed`, `cleanup`,
  `getCurrentLimit`, `resetLimits`, modelled with explicit time passing
  (`Date.now()` becomes a `now : Int` parameter) and the `Map` as a
  function `String → Option RateLimitEntry`;
* the content-safety scorer (`lib/content-filter.ts`): `checkContentSafety`
  with its regex pattern tables, word-count and mythological-relevance
  deductions;
* script structural validation (`lib/ai-client.ts` `validateScriptStructure`),
  where a field of the untyped JS object is `Option String`: `some s` models
  a field that is present and a string (`typeof === 'string'`), `none` models
  a field that is absent or not a string;
* the deterministic mock generators (`lib/ai-client.ts` `generateMockScript`,
  `generateMockImage`);
* the quality validation system (`lib/quality-validation.ts`):
  `validateQuality` with its four weighted rule evaluators and the
  `hasLogicalInconsistencies` helper;
* the script-stage API handler (`app/api/generate-script/route.ts` `POST`),
  with the awaited safety/generation outcomes passed in as parameters.

JS semantics conventions used throughout the embedding: strings are Lean
`String`s; `toLowerCase` is an ASCII character map; `String.prototype.includes`
is substring containment; `split(/\s+/)` is modelled by an explicit splitter
with JS semantics (leading/trailing whitespace contributes empty segments);
regex `\b...\b` word-boundary tests are modelled by an explicit scanner over
the character list; JS numbers holding integers are `Int`, and the quality
evaluator's fractional weight arithmetic is `ℚ`.
-/

set_option maxRecDepth 4000

/-! # Definitions -/

/-! ## JS string primitives -/

/-- JS `\w` word character: `[A-Za-z0-9_]`. -/
def isWordChar (c : Char) : Bool := c.isAlphanum || c = '_'

/-- `String.prototype.toLowerCase` (ASCII case mapping). -/
def strToLower (s : String) : String := ⟨s.data.map Char.toLower⟩

/-- `pat` occurs at the head of `l` (prefix check on character lists). -/
def charsMatch : List Char → List Char → Bool
  | [], _ => true
  | _ :: _, [] => false
  | p :: ps, c :: cs => p = c && charsMatch ps cs

/-- `pat` occurs somewhere inside `l` (substring check on character lists). -/
def listContainsSub (pat : List Char) : List Char → Bool
  | [] => charsMatch pat []
  | l@(_ :: t) => charsMatch pat l || listContainsSub pat t

/-- JS `hay.includes(needle)`: substring containment. -/
def strIncludes (hay needle : String) : Bool := listContainsSub needle.data hay.data

/-- The character after the matched word permits a `\b` boundary there. -/
def boundaryAfter : List Char → Bool
  | [] => true
  | c :: _ => !isWordChar c

/-- The character before the matched word permits a `\b` boundary there. -/
def boundaryBefore : Option Char → Bool
  | none => true
  | some c => !isWordChar c

/-- Scan `l` for an occurrence of the word `pat` delimited by `\b` boundaries;
`prev` is the character immediately before `l` (if any). -/
def findWordMatch (pat : List Char) (prev : Option Char) (l : List Char) : Bool :=
  (boundaryBefore prev && charsMatch pat l && boundaryAfter (l.drop pat.length)) ||
  (match l with
   | [] => false
   | c :: cs => findWordMatch pat (some c) cs)

/-- JS `s.split(/\s+/)` on the character list: `acc` is the (reversed) current
segment, `prevWs` records whether the previous character was whitespace (a run
of whitespace produces a single separation). -/
def splitWsAux (acc : List Char) (prevWs : Bool) : List Char → List (List Char)
  | [] => [acc.reverse]
  | c :: rest =>
    if c.isWhitespace then
      if prevWs then splitWsAux acc true rest
      else acc.reverse :: splitWsAux [] true rest
  else splitWsAux (c :: acc) false rest

/-- `s.split(/\s+/).length` with JS semantics (leading/trailing whitespace
contributes an empty segment; `"".split` gives one segment). -/
def jsWordCount (s : String) : Nat := (splitWsAux [] false s.data).length

/-- JS `String.prototype.trim`. -/
def jsTrim (s : String) : String :=
  ⟨((s.data.dropWhile Char.isWhitespace).reverse.dropWhile Char.isWhitespace).reverse⟩

/-! ## Rate limiter (`lib/rate-limiter.ts`) -/

/-- `interface RateLimitEntry { count: number; resetTime: number }`. -/
structure RateLimitEntry where
  count : Int
  resetTime : Int
deriving DecidableEq

/-- The `RateLimiter` class state: the `limits` map plus configuration. -/
structure RateLimiter where
  limits : String → Option RateLimitEntry
  maxRequests : Int
  windowMs : Int

/-- The record returned by `RateLimiter.isAllowed`. -/
structure RateLimitResult where
  allowed : Bool
  remaining : Int
  resetTime : Int
deriving DecidableEq

/-- `this.limits.set(identifier, entry)`. -/
def mapSet (m : String → Option RateLimitEntry) (k : String) (v : RateLimitEntry) :
    String → Option RateLimitEntry :=
  fun k2 => if k2 = k then some v else m k2

/-- `RateLimiter.isAllowed(identifier)` at time `now`; returns the result and
the updated limiter state. -/
def isAllowed (rl : RateLimiter) (now : Int) (identifier : String) :
    RateLimitResult × RateLimiter :=
  match rl.limits identifier with
  | none =>
    (⟨true, rl.maxRequests - 1, now + rl.windowMs⟩,
     { rl with limits := mapSet rl.limits identifier ⟨1, now + rl.windowMs⟩ })
  | some entry =>
    if now > entry.resetTime then
      (⟨true, rl.maxRequests - 1, now + rl.windowMs⟩,
       { rl with limits := mapSet rl.limits identifier ⟨1, now + rl.windowMs⟩ })
    else if entry.count ≥ rl.maxRequests then
      (⟨false, 0, entry.resetTime⟩, rl)
    else
      (⟨true, rl.maxRequests - (entry.count + 1), entry.resetTime⟩,
       { rl with limits := mapSet rl.limits identifier ⟨entry.count + 1, entry.resetTime⟩ })

/-- `RateLimiter.cleanup()` at time `now`: delete every expired entry. -/
def cleanup (rl : RateLimiter) (now : Int) : RateLimiter :=
  { rl with
    limits := fun k =>
      match rl.limits k with
      | some e => if now > e.resetTime then none else some e
      | none => none }

/-- `RateLimiter.getCurrentLimit(identifier)` at time `now`; returns the entry
(or `null`) and the updated limiter state (an expired entry is deleted). -/
def getCurrentLimit (rl : RateLimiter) (now : Int) (identifier : String) :
    Option RateLimitEntry × RateLimiter :=
  match rl.limits identifier with
  | none => (none, rl)
  | some entry =>
    if now > entry.resetTime then
      (none, { rl with limits := fun k => if k = identifier then none else rl.limits k })
    else (some entry, rl)

/-- `RateLimiter.resetLimits()`: clear the map. -/
def resetLimits (rl : RateLimiter) : RateLimiter :=
  { rl with limits := fun _ => none }

/-- One operation on the shared limiter state. -/
inductive LimiterOp where
  | check (now : Int) (id : String)
  | sweep (now : Int)
  | getLimit (now : Int) (id : String)
  | reset

/-- Apply one operation to the limiter state. -/
def applyOp (rl : RateLimiter) : LimiterOp → RateLimiter
  | .check now id => (isAllowed rl now id).2
  | .sweep now => cleanup rl now
  | .getLimit now id => (getCurrentLimit rl now id).2
  | .reset => resetLimits rl

/-- Apply a sequence of operations to the limiter state. -/
def applyOps (rl : RateLimiter) (ops : List LimiterOp) : RateLimiter :=
  ops.foldl applyOp rl

/-- Quota-table invariant: every stored entry has `1 ≤ count ≤ maxRequests`. -/
def LimiterInv (rl : RateLimiter) : Prop :=
  ∀ id e, rl.limits id = some e → 1 ≤ e.count ∧ e.count ≤ rl.maxRequests

/-- Run `isAllowed` once per time in the list, threading the state. -/
def runChecks (rl : RateLimiter) (id : String) :
    List Int → List RateLimitResult × RateLimiter
  | [] => ([], rl)
  | t :: ts =>
    let step := isAllowed rl t id
    let rest := runChecks step.2 id ts
    (step.1 :: rest.1, rest.2)

/-- A concrete limiter: empty table, ceiling 2, window 60000 ms. -/
def rlEmptyTwo : RateLimiter := ⟨fun _ => none, 2, 60000⟩

/-! ## Content safety scorer (`lib/content-filter.ts`) -/

/-- One alternative set of a `\b(w1|w2|...)\b/i` regex: its word alternatives
(all lowercase in the source tables). -/
def testPattern (alts : List String) (content : String) : Bool :=
  alts.any (fun a => findWordMatch a.data none (strToLower content).data)

/-- `INAPPROPRIATE_PATTERNS`: category name paired with its list of regex
patterns, each pattern given by its word alternatives. -/
def INAPPROPRIATE_PATTERNS : List (String × List (List String)) :=
  [("violence",
    [["kill", "murder", "death", "blood", "gore", "torture", "pain", "suffering"],
     ["war", "battle", "fight", "attack", "destroy", "crush", "smash", "burn"]]),
   ("sexual",
    [["sex", "sexual", "nude", "naked", "intimate", "romance", "love", "kiss"]]),
   ("hate",
    [["hate", "racist", "discriminate", "insult", "curse", "swear"]]),
   ("inappropriate",
    [["drug", "alcohol", "smoke", "drunk", "high"]])]

/-- The `switch (category)` block pushing one category-specific suggestion
(the switch has no default arm, hence the empty list). -/
def categorySuggestion : String → List String
  | "violence" => ["Consider using more peaceful language or focusing on the spiritual aspects"]
  | "sexual" => ["Focus on the divine and spiritual aspects of the story"]
  | "hate" => ["Use respectful and inclusive language"]
  | "inappropriate" => ["Keep content family-friendly and appropriate"]
  | _ => []

/-- The mutable locals of `checkContentSafety` during the pattern loops. -/
structure ScanState where
  score : Int
  flagged : Bool
  issues : List String
  suggestions : List String

/-- Body of the inner pattern loop: on a match, deduct 20, flag, and push the
issue and the category suggestion. -/
def scanPattern (content : String) (category : String) (st : ScanState)
    (alts : List String) : ScanState :=
  if testPattern alts content then
    { score := st.score - 20, flagged := true,
      issues := st.issues ++ ["Contains " ++ category ++ " content"],
      suggestions := st.suggestions ++ categorySuggestion category }
  else st

/-- Body of the outer category loop. -/
def scanCategory (content : String) (st : ScanState)
    (cat : String × List (List String)) : ScanState :=
  cat.2.foldl (scanPattern content cat.1) st

/-- Both pattern loops of `checkContentSafety`, starting from score 100. -/
def scanPatterns (content : String) : ScanState :=
  INAPPROPRIATE_PATTERNS.foldl (scanCategory content) ⟨100, false, [], []⟩

/-- The `mythologicalKeywords` list of `checkMythologicalRelevance`. -/
def mythologicalKeywords : List String :=
  ["krishna", "rama", "hanuman", "shiva", "durga", "ganesha",
   "mahabharata", "ramayana", "bhagavad gita", "vedas", "upanishads",
   "temple", "ashram", "guru", "yoga", "meditation", "dharma",
   "karma", "moksha", "bhakti", "deva", "asura", "avatar"]

/-- `checkMythologicalRelevance(content)`: some keyword is a substring (the
argument is the already-lowercased content, as at the call site). -/
def checkMythologicalRelevance (content : String) : Bool :=
  mythologicalKeywords.any (fun keyword => strIncludes content keyword)

/-- The result record of `checkContentSafety` (the `categories` record is
flattened into four fields). -/
structure SafetyCheckResult where
  safe : Bool
  flagged : Bool
  categoriesViolence : Bool
  categoriesSexual : Bool
  categoriesHate : Bool
  categoriesInappropriate : Bool
  score : Int
  issues : List String
  suggestions : List String

/-- The `// Check content length and complexity` block of
`checkContentSafety`. -/
def applyLengthCheck (wordCount : Nat) (st : ScanState) : ScanState :=
  if wordCount < 3 then
    { st with
      score := st.score - 10,
      issues := st.issues ++ ["Content too short"],
      suggestions := st.suggestions ++ ["Provide more descriptive content for better results"] }
  else if wordCount > 50 then
    { st with
      score := st.score - 15,
      issues := st.issues ++ ["Content too long"],
      suggestions := st.suggestions ++ ["Keep descriptions concise and focused"] }
  else st

/-- The `// Check for mythological relevance` block of `checkContentSafety`. -/
def applyMythCheck (hasMythologicalElements : Bool) (st : ScanState) : ScanState :=
  if !hasMythologicalElements then
    { st with
      score := st.score - 25,
      issues := st.issues ++ ["Content lacks mythological elements"],
      suggestions := st.suggestions ++ ["Include references to Indian mythology, characters, or concepts"] }
  else st

/-- `checkContentSafety(content)`: pattern loops, then the length check, then
the relevance check, then the result record. -/
def checkContentSafety (content : String) : SafetyCheckResult :=
  let lowerContent := strToLower content
  let st3 := applyMythCheck (checkMythologicalRelevance lowerContent)
    (applyLengthCheck (jsWordCount content) (scanPatterns content))
  { safe := decide (70 ≤ st3.score),
    flagged := (scanPatterns content).flagged,
    categoriesViolence := strIncludes lowerContent "violence",
    categoriesSexual := strIncludes lowerContent "sexual",
    categoriesHate := strIncludes lowerContent "hate",
    categoriesInappropriate := strIncludes lowerContent "inappropriate",
    score := max 0 st3.score,
    issues := st3.issues,
    suggestions := st3.suggestions }

/-- Number of individual pattern matchers (over all categories of `cats`)
matching `content`. -/
def matchCountCats (content : String) :
    List (String × List (List String)) → Nat
  | [] => 0
  | cat :: rest =>
    (cat.2.filter (fun alts => testPattern alts content)).length +
      matchCountCats content rest

/-- Number of individual pattern matchers of `INAPPROPRIATE_PATTERNS`
matching `content`. -/
def matchCount (content : String) : Nat :=
  matchCountCats content INAPPROPRIATE_PATTERNS

/-- The word-count deduction of `checkContentSafety`. -/
def lengthPenalty (wordCount : Nat) : Int :=
  if wordCount < 3 then 10 else if wordCount > 50 then 15 else 0

/-- Number of word-count issues pushed by `checkContentSafety`. -/
def lengthIssueCount (wordCount : Nat) : Nat :=
  if wordCount < 3 then 1 else if wordCount > 50 then 1 else 0

/-- The mythological-relevance deduction of `checkContentSafety`. -/
def mythPenalty (content : String) : Int :=
  if checkMythologicalRelevance (strToLower content) then 0 else 25

/-- Number of mythological-relevance issues pushed by `checkContentSafety`. -/
def mythIssueCount (content : String) : Nat :=
  if checkMythologicalRelevance (strToLower content) then 0 else 1

/-- The safety score before the `Math.max(0, score)` floor. -/
def rawSafetyScore (content : String) : Int :=
  100 - 20 * matchCount content - lengthPenalty (jsWordCount content) -
    mythPenalty content

/-! ### Monotonicity of the pattern matcher under appending -/

/-- The head of `m` (if any) does not carry a word character, so a `\b`
boundary survives at the junction when `m` is appended. -/
def headBoundaryOk : List Char → Bool
  | [] => true
  | c :: _ => !isWordChar c

/-- The appended phrase begins with a non-word character (e.g. a space), so
it is word-separated from the text it is appended to. -/
def beginsNonWord (t : String) : Bool := headBoundaryOk (strToLower t).data

/-! ## Script structural validation (`lib/ai-client.ts`) -/

/-- A generated-script object as seen by `validateScriptStructure`: each field
is `some s` when present and a string (`typeof === 'string'`), `none` when
absent or not a string. -/
structure ScriptObj where
  narrator_caption : Option String
  dialogue : Option String
  image_description : Option String

/-- `AIClient.validateScriptStructure(script)`: all three fields must be
strings, and `narrator_caption` and `image_description` must be non-empty. -/
def validateScriptStructure (script : ScriptObj) : Bool :=
  match script.narrator_caption, script.dialogue, script.image_description with
  | some nc, some _, some imgd => nc.length > 0 && imgd.length > 0
  | _, _, _ => false

/-! ## Mock (degraded-mode) generators (`lib/ai-client.ts`) -/

/-- The three-field script produced by `generateScript`/`generateMockScript`. -/
structure Script3 where
  narrator_caption : String
  dialogue : String
  image_description : String
deriving DecidableEq

/-- `AIClient.generateMockScript(scene, sceneType)`: keyword-matched canned
scripts, falling back to a scene-type default. -/
def generateMockScript (scene sceneType : String) : Script3 :=
  let lowerScene := strToLower scene
  if strIncludes lowerScene "krishna" || strIncludes lowerScene "flute" ||
      strIncludes lowerScene "govardhan" then
    if strIncludes lowerScene "govardhan" || strIncludes lowerScene "lift" then
      ⟨"With divine strength, Lord Krishna lifts the mighty Govardhan Hill to protect his devotees.",
       "Fear not, my children!",
       "Krishna in his blue form holds up the massive Govardhan Hill with one finger, while villagers and animals shelter beneath. His face radiates divine protection and love. The scene shows the contrast between the massive mountain and the small figure beneath it."⟩
    else
      ⟨"Lord Krishna\x27s divine flute calls forth the magic of creation itself.",
       "Come, let us dance!",
       "Krishna in his characteristic blue form plays a golden flute, surrounded by mesmerized devotees and animals. His peacock feather crown gleams, and the scene is filled with divine music notes and ethereal light."⟩
  else if strIncludes lowerScene "ram" || strIncludes lowerScene "bow" ||
      strIncludes lowerScene "arrow" || strIncludes lowerScene "sita" then
    if strIncludes lowerScene "bow" || strIncludes lowerScene "break" then
      ⟨"Prince Rama\x27s mighty strength shatters the divine bow, proving his worthiness.",
       "For Sita\x27s hand!",
       "Rama in royal attire stands before the broken pieces of Shiva\x27s divine bow. His face shows determination and divine power. The scene includes amazed onlookers and Sita watching with admiration. Golden light surrounds the moment of triumph."⟩
    else
      ⟨"Prince Rama\x27s arrow flies true, guided by dharma and divine purpose.",
       "For justice and truth!",
       "Rama in royal attire draws his mighty bow, aiming with perfect focus. His face shows determination and righteousness. The arrow glows with divine energy, and the background shows a forest setting with his loyal companions."⟩
  else if strIncludes lowerScene "hanuman" || strIncludes lowerScene "leap" ||
      strIncludes lowerScene "mountain" then
    ⟨"Hanuman\x27s mighty leap carries him across the vast ocean, mountain in hand.",
     "For Lord Rama!",
     "Hanuman in his orange form leaps dramatically across the ocean, carrying the Dronagiri mountain. His face shows determination and devotion. The scene captures the dynamic movement with wind effects and ocean waves below."⟩
  else if strIncludes lowerScene "shiva" || strIncludes lowerScene "third eye" ||
      strIncludes lowerScene "cosmic" then
    ⟨"Shiva\x27s third eye opens, unleashing cosmic destruction upon the universe.",
     "Enough!",
     "Shiva with his third eye open, radiating destructive cosmic energy. His face shows divine fury and power. The scene includes ash-covered body, serpents, and cosmic destruction effects. The background shows the universe being consumed by divine fire."⟩
  else if strIncludes lowerScene "durga" || strIncludes lowerScene "battle" ||
      strIncludes lowerScene "demon" then
    ⟨"Goddess Durga\x27s divine weapons strike down the buffalo demon Mahishasura.",
     "Evil shall not prevail!",
     "Durga with multiple arms wielding various divine weapons, riding her lion mount. Her face shows divine fury and determination. The scene shows the demon Mahishasura being defeated, with divine light and weapon effects."⟩
  else if strIncludes lowerScene "ganesha" || strIncludes lowerScene "writing" ||
      strIncludes lowerScene "mahabharata" then
    ⟨"Ganesha\x27s wisdom flows as he writes the great epic, guided by Vyasa\x27s words.",
     "The story unfolds...",
     "Ganesha with his elephant head sits writing, while Vyasa dictates the Mahabharata. His mouse companion sits nearby. The scene shows ancient scrolls, divine wisdom, and the sacred act of preserving knowledge."⟩
  else if strIncludes lowerScene "meditation" || strIncludes lowerScene "spiritual" ||
      strIncludes lowerScene "enlighten" then
    ⟨"In the sacred grove, the seeker\x27s soul transcends mortal boundaries, touched by divine wisdom.",
     "I see the truth now...",
     "A serene figure in white robes sits in meditation pose within a mystical forest. Divine light streams down from above, illuminating their peaceful expression. Sacred symbols float in the air around them, and ancient trees form a natural temple."⟩
  else if strIncludes lowerScene "battle" || strIncludes lowerScene "fight" ||
      strIncludes lowerScene "war" then
    ⟨"With divine fury coursing through his veins, the warrior stands resolute against the demonic horde.",
     "I shall not yield!",
     "A muscular warrior in traditional Indian armor stands defiantly, wielding a glowing divine weapon. His face shows determination and divine radiance. Behind him, a dark demonic army approaches. The scene is bathed in golden light with dramatic shadows."⟩
  else if sceneType = "action" then
    ⟨"With divine fury coursing through his veins, the warrior stands resolute against the demonic horde.",
     "I shall not yield!",
     "A muscular warrior in traditional Indian armor stands defiantly, wielding a glowing divine weapon. His face shows determination and divine radiance. Behind him, a dark demonic army approaches. The scene is bathed in golden light with dramatic shadows."⟩
  else if sceneType = "spiritual" then
    ⟨"In the sacred grove, the seeker\x27s soul transcends mortal boundaries, touched by divine wisdom.",
     "I see the truth now...",
     "A serene figure in white robes sits in meditation pose within a mystical forest. Divine light streams down from above, illuminating their peaceful expression. Sacred symbols float in the air around them, and ancient trees form a natural temple."⟩
  else
    ⟨"The ancient tale unfolds as destiny weaves its intricate pattern through the fabric of time.",
     "So it begins...",
     "A majestic figure in traditional Indian attire stands before a grand temple. Their pose conveys wisdom and authority. The background shows intricate architectural details and mystical symbols. Soft lighting creates an atmosphere of reverence."⟩

/-- `AIClient.generateMockImage(prompt, styleType)`: keyword-matched canned
placeholder image URLs, falling back to a style-keyed default. -/
def generateMockImage (prompt styleType : String) : String :=
  let lowerPrompt := strToLower prompt
  if strIncludes lowerPrompt "krishna" || strIncludes lowerPrompt "flute" ||
      strIncludes lowerPrompt "govardhan" then
    "https://images.unsplash.com/photo-1578662996442-48f60103fc96?w=800&h=600&fit=crop&crop=center&q=80"
  else if strIncludes lowerPrompt "ram" || strIncludes lowerPrompt "bow" ||
      strIncludes lowerPrompt "arrow" || strIncludes lowerPrompt "sita" then
    "https://images.unsplash.com/photo-1506905925346-21bda4d32df4?w=800&h=600&fit=crop&crop=center&q=80"
  else if strIncludes lowerPrompt "hanuman" || strIncludes lowerPrompt "monkey" ||
      strIncludes lowerPrompt "leap" || strIncludes lowerPrompt "mountain" then
    "https://images.unsplash.com/photo-1541961017774-22349e4a1262?w=800&h=600&fit=crop&crop=center&q=80"
  else if strIncludes lowerPrompt "shiva" || strIncludes lowerPrompt "meditation" ||
      strIncludes lowerPrompt "third eye" || strIncludes lowerPrompt "cosmic" then
    "https://images.unsplash.com/photo-1506905925346-21bda4d32df4?w=800&h=600&fit=crop&crop=center&q=80"
  else if strIncludes lowerPrompt "durga" || strIncludes lowerPrompt "battle" ||
      strIncludes lowerPrompt "demon" || strIncludes lowerPrompt "weapon" then
    "https://images.unsplash.com/photo-1578662996442-48f60103fc96?w=800&h=600&fit=crop&crop=center&q=80"
  else if strIncludes lowerPrompt "ganesha" || strIncludes lowerPrompt "wisdom" ||
      strIncludes lowerPrompt "writing" || strIncludes lowerPrompt "elephant" then
    "https://images.unsplash.com/photo-1541961017774-22349e4a1262?w=800&h=600&fit=crop&crop=center&q=80"
  else if strIncludes lowerPrompt "temple" || strIncludes lowerPrompt "spiritual" ||
      strIncludes lowerPrompt "divine" || strIncludes lowerPrompt "sacred" then
    "https://images.unsplash.com/photo-1506905925346-21bda4d32df4?w=800&h=600&fit=crop&crop=center&q=80"
  else if strIncludes lowerPrompt "battle" || strIncludes lowerPrompt "fight" ||
      strIncludes lowerPrompt "war" || strIncludes lowerPrompt "attack" then
    "https://images.unsplash.com/photo-1578662996442-48f60103fc96?w=800&h=600&fit=crop&crop=center&q=80"
  else if styleType = "vibrant" then
    "https://images.unsplash.com/photo-1578662996442-48f60103fc96?w=800&h=600&fit=crop&crop=center&q=80"
  else if styleType = "earth" then
    "https://images.unsplash.com/photo-1541961017774-22349e4a1262?w=800&h=600&fit=crop&crop=center&q=80"
  else if styleType = "divine" then
    "https://images.unsplash.com/photo-1506905925346-21bda4d32df4?w=800&h=600&fit=crop&crop=center&q=80"
  else
    "https://images.unsplash.com/photo-1578662996442-48f60103fc96?w=800&h=600&fit=crop&crop=center&q=80"

/-- View a `Script3` (whose three fields always exist as strings) as the
untyped script object consumed by `validateScriptStructure`. -/
def toScriptObj (s : Script3) : ScriptObj :=
  ⟨some s.narrator_caption, some s.dialogue, some s.image_description⟩

/-! ## Quality validation (`lib/quality-validation.ts`) -/

/-- The per-rule result record. -/
structure ValidationResult where
  passed : Bool
  score : Int
  issues : List String
  suggestions : List String

/-- JS template interpolation of a possibly-missing field:
interpolating `undefined` yields the string "undefined". -/
def jsTemplate : Option String → String
  | some s => s
  | none => "undefined"

/-- JS `field || ""`. -/
def jsOrEmpty : Option String → String
  | some s => s
  | none => ""

/-- JS `field?.toLowerCase().includes(term)` (false when the field is absent). -/
def optLowerIncludes (o : Option String) (term : String) : Bool :=
  match o with
  | some s => strIncludes (strToLower s) term
  | none => false

/-- JS `field?.includes(term)` without lowercasing (false when absent). -/
def optIncludes (o : Option String) (term : String) : Bool :=
  match o with
  | some s => strIncludes s term
  | none => false

/-- `` `${script.narrator_caption} ${script.image_description}` ``. -/
def scriptContent (script : ScriptObj) : String :=
  jsTemplate script.narrator_caption ++ " " ++ jsTemplate script.image_description

/-- JS `s.split(' ').length`: one more than the number of space characters. -/
def jsSplitSpaceCount (s : String) : Nat := s.data.count ' ' + 1

/-- JS `s.endsWith(c)` for a single-character suffix. -/
def strEndsWith (s : String) (c : Char) : Bool := s.data.getLast? = some c

/-- The `characterKeywords` list of `extractCharacterNames`. -/
def characterKeywords : List String :=
  ["krishna", "rama", "hanuman", "shiva", "durga", "ganesha",
   "arjuna", "sita", "lakshmana", "bharata", "radha", "parvati"]

/-- `extractCharacterNames(scene)`. -/
def extractCharacterNames (scene : String) : List String :=
  characterKeywords.filter (fun keyword => strIncludes (strToLower scene) keyword)

/-- `checkCharacterAccuracy(character, script)`: issue/suggestion lists
(`accurate` is `issues.length === 0`). Only the krishna/"evil" rule exists,
and it tests `script.image_description?.includes('evil')` case-sensitively. -/
def checkCharacterAccuracy (character : String) (script : ScriptObj) :
    List String × List String :=
  if character = "krishna" && optIncludes script.image_description "evil" then
    (["Krishna should not be portrayed as evil"],
     ["Focus on Krishna\x27s divine and protective nature"])
  else ([], [])

/-- `checkMythologicalElements(script)`. -/
def checkMythologicalElements (script : ScriptObj) : Bool :=
  let content := strToLower (scriptContent script)
  ["divine", "sacred", "cosmic", "spiritual", "temple", "ashram",
   "guru", "yoga", "meditation", "dharma", "karma", "moksha"].any
    (fun keyword => strIncludes content keyword)

/-- `checkCulturalContext(script)`: the body is empty, so no issues or
suggestions are ever produced. -/
def checkCulturalContext (_script : ScriptObj) : List String × List String :=
  ([], [])

/-- `validateMythologicalAccuracy(script, context)` (`context.scene`). -/
def validateMythologicalAccuracy (script : ScriptObj) (scene : String) :
    ValidationResult :=
  let characterNames := extractCharacterNames scene
  let st := characterNames.foldl
    (fun (acc : Int × List String × List String) character =>
      let accuracy := checkCharacterAccuracy character script
      if accuracy.1.length = 0 then acc
      else (acc.1 - 15, acc.2.1 ++ accuracy.1, acc.2.2 ++ accuracy.2))
    (100, [], [])
  let st2 :=
    if !checkMythologicalElements script then
      (st.1 - 20,
       st.2.1 ++ ["Missing core mythological elements"],
       st.2.2 ++ ["Include references to divine powers, sacred places, or spiritual concepts"])
    else st
  let culturalContext := checkCulturalContext script
  let st3 :=
    if culturalContext.1.length > 0 then
      (st2.1 - 10, st2.2.1 ++ culturalContext.1, st2.2.2 ++ culturalContext.2)
    else st2
  ⟨decide (70 ≤ st3.1), max 0 st3.1, st3.2.1, st3.2.2⟩

/-- The JS `&&` on (truthy) strings: `a && b` evaluates to `b` when `a` is a
non-empty string, and to `a` when `a` is the empty string. -/
def jsAnd (a b : String) : String := if a = "" then a else b

/-- The `inconsistencies` array of `hasLogicalInconsistencies`: each element
was written as `'x' && 'y'`, which evaluates to its second string. -/
def inconsistencies : List String :=
  [jsAnd "day" "stars", jsAnd "indoor" "mountain", jsAnd "underwater" "fire"]

/-- `hasLogicalInconsistencies(imageDesc)`: each element is destructured as
`[a, b]`, which on a string yields its first two characters; the check then
tests `includes(a) && includes(b)` on the lowercased description (a
single-character `includes` is character containment). -/
def hasLogicalInconsistencies (imageDesc : String) : Bool :=
  inconsistencies.any (fun s =>
    let a := s.data.getD 0 ' '
    let b := s.data.getD 1 ' '
    (strToLower imageDesc).data.contains a && (strToLower imageDesc).data.contains b)

/-- The `visualElements` list of `validateVisualCoherence`. -/
def visualElements : List String :=
  ["character", "pose", "expression", "setting", "lighting",
   "clothing", "weapons", "background", "atmosphere"]

/-- `validateVisualCoherence(script, context)`. -/
def validateVisualCoherence (script : ScriptObj) (_scene : String) :
    ValidationResult :=
  let imageDesc := jsOrEmpty script.image_description
  let st1 : Int × List String × List String :=
    if imageDesc.length < 30 then
      (100 - 15, ["Image description too short"],
       ["Provide more detailed visual description"])
    else (100, [], [])
  let st2 :=
    if imageDesc.length > 100 then
      (st1.1 - 10, st1.2.1 ++ ["Image description too long"],
       st1.2.2 ++ ["Keep description concise but detailed"])
    else st1
  let missingElements :=
    visualElements.filter (fun element => !strIncludes (strToLower imageDesc) element)
  let st3 :=
    if missingElements.length > 3 then
      (st2.1 - 20,
       st2.2.1 ++ ["Missing key visual elements: " ++
         String.intercalate ", " (missingElements.take 3)],
       st2.2.2 ++ ["Include character appearance, setting, and atmosphere details"])
    else st2
  let st4 :=
    if hasLogicalInconsistencies imageDesc then
      (st3.1 - 15, st3.2.1 ++ ["Visual elements have logical inconsistencies"],
       st3.2.2 ++ ["Ensure all visual elements work together logically"])
    else st3
  ⟨decide (70 ≤ st4.1), max 0 st4.1, st4.2.1, st4.2.2⟩

/-- `hasCulturalStereotypes(script)`. -/
def hasCulturalStereotypes (script : ScriptObj) : Bool :=
  let content := strToLower (scriptContent script)
  ["mystical east", "exotic", "oriental", "primitive"].any
    (fun stereotype => strIncludes content stereotype)

/-- `checkAuthenticCulturalElements(script)`. -/
def checkAuthenticCulturalElements (script : ScriptObj) : Bool :=
  let content := strToLower (scriptContent script)
  ["temple", "ashram", "guru", "yoga", "meditation",
   "bhakti", "dharma", "karma", "moksha"].any
    (fun element => strIncludes content element)

/-- `validateCulturalAuthenticity(script, context)`. -/
def validateCulturalAuthenticity (script : ScriptObj) (_scene : String) :
    ValidationResult :=
  let hasDisrespectfulTerms :=
    ["idol", "pagan", "primitive", "superstitious"].any (fun term =>
      optLowerIncludes script.narrator_caption term ||
      optLowerIncludes script.image_description term)
  let st1 : Int × List String × List String :=
    if hasDisrespectfulTerms then
      (100 - 25, ["Contains disrespectful language"],
       ["Use respectful and culturally appropriate terminology"])
    else (100, [], [])
  let st2 :=
    if hasCulturalStereotypes script then
      (st1.1 - 20, st1.2.1 ++ ["Contains cultural stereotypes"],
       st1.2.2 ++ ["Avoid oversimplified cultural representations"])
    else st1
  let st3 :=
    if !checkAuthenticCulturalElements script then
      (st2.1 - 15, st2.2.1 ++ ["Missing authentic cultural elements"],
       st2.2.2 ++ ["Include specific cultural details and traditions"])
    else st2
  ⟨decide (70 ≤ st3.1), max 0 st3.1, st3.2.1, st3.2.2⟩

/-- `hasNarrativeStructure(caption)`. -/
def hasNarrativeStructure (caption : String) : Bool :=
  jsSplitSpaceCount caption ≥ 10 && strIncludes caption "," &&
    strEndsWith caption '.'

/-- `validateStorytellingQuality(script, context)`. -/
def validateStorytellingQuality (script : ScriptObj) (_scene : String) :
    ValidationResult :=
  let caption := jsOrEmpty script.narrator_caption
  let st1 : Int × List String × List String :=
    if caption.length < 15 then
      (100 - 15, ["Narrator caption too short"],
       ["Provide more descriptive narration"])
    else (100, [], [])
  let st2 :=
    if caption.length > 35 then
      (st1.1 - 10, st1.2.1 ++ ["Narrator caption too long"],
       st1.2.2 ++ ["Keep narration concise but impactful"])
    else st1
  let dialogue := jsOrEmpty script.dialogue
  let st3 :=
    if !(dialogue = "") && dialogue.length > 20 then
      (st2.1 - 10, st2.2.1 ++ ["Dialogue too long"],
       st2.2.2 ++ ["Keep dialogue short and impactful"])
    else st2
  let hasEmotionalImpact :=
    ["divine", "sacred", "majestic", "powerful", "beautiful", "awe-inspiring"].any
      (fun word => strIncludes (strToLower caption) word ||
        strIncludes (strToLower dialogue) word)
  let st4 :=
    if !hasEmotionalImpact then
      (st3.1 - 15, st3.2.1 ++ ["Lacks emotional impact"],
       st3.2.2 ++ ["Include words that convey mythological grandeur"])
    else st3
  let st5 :=
    if !hasNarrativeStructure caption then
      (st4.1 - 10, st4.2.1 ++ ["Poor narrative structure"],
       st4.2.2 ++ ["Create a clear beginning, middle, and end in the narration"])
    else st4
  ⟨decide (70 ≤ st5.1), max 0 st5.1, st5.2.1, st5.2.2⟩

/-- One entry of `VALIDATION_RULES`. -/
structure ValidationRule where
  name : String
  description : String
  weight : ℚ
  validator : ScriptObj → String → ValidationResult

/-- The `VALIDATION_RULES` table with the fixed weights. -/
def VALIDATION_RULES : List ValidationRule :=
  [⟨"Mythological Accuracy",
    "Ensures content aligns with traditional Indian mythology",
    0.3, validateMythologicalAccuracy⟩,
   ⟨"Visual Coherence",
    "Checks if visual elements work together logically",
    0.25, validateVisualCoherence⟩,
   ⟨"Cultural Authenticity",
    "Verifies cultural elements are respectful and accurate",
    0.25, validateCulturalAuthenticity⟩,
   ⟨"Storytelling Quality",
    "Assesses narrative structure and emotional impact",
    0.2, validateStorytellingQuality⟩]

/-- The result record of `validateQuality`. -/
structure QualityValidationResult where
  valid : Bool
  score : Int
  issues : List String
  suggestions : List String
  strengths : List String
  mythologicalAccuracy : Int
  visualCoherence : Int
  culturalAuthenticity : Int
  storytellingQuality : Int

/-- `validateQuality(script, scene)`: runs every rule, accumulates the
weighted total, divides by the total weight, rounds the final score, and
collects issue/suggestion/strength lists and per-dimension metadata. -/
def validateQuality (script : ScriptObj) (scene : String) :
    QualityValidationResult :=
  let acc := VALIDATION_RULES.foldl
    (fun (acc : List ValidationResult × ℚ × ℚ) rule =>
      let result := rule.validator script scene
      (acc.1 ++ [result], acc.2.1 + (result.score : ℚ) * rule.weight,
       acc.2.2 + rule.weight))
    ([], 0, 0)
  let results := acc.1
  let totalScore := acc.2.1
  let totalWeight := acc.2.2
  let finalScore : ℚ := if totalWeight > 0 then totalScore / totalWeight else 0
  let allIssues := results.foldl (fun l r => l ++ r.issues) []
  let allSuggestions := results.foldl (fun l r => l ++ r.suggestions) []
  let allStrengths := results.foldl
    (fun l r =>
      if r.score ≥ 80 then
        l ++ ["Strong " ++ (if r.score ≥ 90 then "excellent" else "good") ++ " quality"]
      else l) []
  { valid := decide (70 ≤ finalScore),
    score := round finalScore,
    issues := allIssues,
    suggestions := allSuggestions,
    strengths := allStrengths,
    mythologicalAccuracy := ((results.get? 0).map ValidationResult.score).getD 0,
    visualCoherence := ((results.get? 1).map ValidationResult.score).getD 0,
    culturalAuthenticity := ((results.get? 2).map ValidationResult.score).getD 0,
    storytellingQuality := ((results.get? 3).map ValidationResult.score).getD 0 }

/-! ## Script-stage API handler (`app/api/generate-script/route.ts`) -/

/-- Outcome of the awaited `aiClient.checkContentSafety(scene)` call: a
resolved verdict, or a thrown error. -/
inductive SafetyOutcome where
  | ok (safe : Bool)
  | fault

/-- Outcome of the awaited `aiClient.generateScript(scene, sceneType)` call. -/
inductive GenOutcome where
  | ok (script : Script3)
  | fault

/-- The handler responses distinguishable at the API boundary. -/
inductive ScriptApiResponse where
  | missingScene
  | badWordCount
  | rateLimited (resetTime : Int)
  | unsafeInput
  | success (script : Script3) (remaining : Int) (resetTime : Int)
  | serverError
deriving DecidableEq

/-- The observable effect of one `POST` call: the response, the rate-limiter
state afterwards, and whether the safety / generation provider calls were
made. -/
structure HandlerOutcome where
  response : ScriptApiResponse
  limiter : RateLimiter
  safetyCalled : Bool
  generateCalled : Bool

/-- The part of `POST` after the safety gate: script generation (a failure is
caught by the outer handler and returned as a 500), advisory quality
validation, and response assembly. -/
def afterSafetyGate (rlRes : RateLimitResult × RateLimiter) (gen : GenOutcome) :
    HandlerOutcome :=
  match gen with
  | .fault => ⟨.serverError, rlRes.2, true, true⟩
  | .ok script =>
    ⟨.success script rlRes.1.remaining rlRes.1.resetTime, rlRes.2, true, true⟩

/-- `POST(request)` of the script route: required-field check, word-count
validation, admission check, safety gate (failing open on a fault), then
generation. -/
def generateScriptPOST (rl : RateLimiter) (now : Int) (clientIP : String)
    (scene : String) (safety : SafetyOutcome) (gen : GenOutcome) :
    HandlerOutcome :=
  if (jsTrim scene).length = 0 then
    ⟨.missingScene, rl, false, false⟩
  else
    let wordCount := jsWordCount (jsTrim scene)
    if wordCount < 3 || wordCount > 20 then
      ⟨.badWordCount, rl, false, false⟩
    else
      let rlRes := isAllowed rl now clientIP
      if !rlRes.1.allowed then
        ⟨.rateLimited rlRes.1.resetTime, rlRes.2, false, false⟩
      else
        match safety with
        | .ok false => ⟨.unsafeInput, rlRes.2, true, false⟩
        | .ok true => afterSafetyGate rlRes gen
        | .fault => afterSafetyGate rlRes gen

/-! # Theorems -/

/-! ### Rate limiter lemmas -/

lemma isAllowed_maxRequests (rl : RateLimiter) (now : Int) (id : String) :
    (isAllowed rl now id).2.maxRequests = rl.maxRequests := by
  unfold isAllowed
  cases rl.limits id with
  | none => rfl
  | some e =>
    dsimp only
    split
    · rfl
    · split <;> rfl

lemma isAllowed_windowMs (rl : RateLimiter) (now : Int) (id : String) :
    (isAllowed rl now id).2.windowMs = rl.windowMs := by
  unfold isAllowed
  cases rl.limits id with
  | none => rfl
  | some e =>
    dsimp only
    split
    · rfl
    · split <;> rfl

lemma runChecks_allowed (id : String) (R : Int) (ts : List Int) :
    ∀ (rl : RateLimiter) (c : Int),
      rl.limits id = some ⟨c, R⟩ →
      (∀ t ∈ ts, t ≤ R) →
      c + ts.length ≤ rl.maxRequests →
      (∀ r ∈ (runChecks rl id ts).1, r.allowed = true) ∧
      (runChecks rl id ts).2.limits id = some ⟨c + ts.length, R⟩ ∧
      (runChecks rl id ts).2.maxRequests = rl.maxRequests ∧
      (runChecks rl id ts).2.windowMs = rl.windowMs := by
  induction ts with
  | nil =>
    intro rl c hentry _ _
    refine ⟨by intro r hr; simp [runChecks] at hr, ?_, rfl, rfl⟩
    simpa [runChecks] using hentry
  | cons t ts ih =>
    intro rl c hentry hts hcap
    have ht : ¬ (t > R) := by
      have := hts t (List.mem_cons_self t ts)
      omega
    have hlt : ¬ (c ≥ rl.maxRequests) := by
      simp only [List.length_cons] at hcap
      push_cast at hcap
      omega
    have hstep : isAllowed rl t id =
        (⟨true, rl.maxRequests - (c + 1), R⟩,
         { rl with limits := mapSet rl.limits id ⟨c + 1, R⟩ }) := by
      simp [isAllowed, hentry, ht, hlt]
    have hentry' : (mapSet rl.limits id ⟨c + 1, R⟩) id = some ⟨c + 1, R⟩ := by
      simp [mapSet]
    have hrest := ih { rl with limits := mapSet rl.limits id ⟨c + 1, R⟩ } (c + 1)
      hentry' (fun u hu => hts u (List.mem_cons_of_mem t hu))
      (by dsimp only; simp only [List.length_cons] at hcap; push_cast at hcap ⊢; omega)
    refine ⟨?_, ?_, ?_, ?_⟩
    · intro r hr
      simp only [runChecks, hstep] at hr
      rcases List.mem_cons.mp hr with h | h
      · rw [h]
      · exact hrest.1 r h
    · simp only [runChecks, hstep]
      rw [hrest.2.1]
      simp only [List.length_cons, Option.some.injEq, RateLimitEntry.mk.injEq]
      refine ⟨by push_cast; ring, trivial⟩
    · simp only [runChecks, hstep]
      exact hrest.2.2.1
    · simp only [runChecks, hstep]
      exact hrest.2.2.2

lemma isAllowed_fresh (rl : RateLimiter) (now : Int) (id : String)
    (hfresh : ∀ e, rl.limits id = some e → e.resetTime < now) :
    isAllowed rl now id =
      (⟨true, rl.maxRequests - 1, now + rl.windowMs⟩,
       { rl with limits := mapSet rl.limits id ⟨1, now + rl.windowMs⟩ }) := by
  rcases hh : rl.limits id with _ | e
  · simp [isAllowed, hh]
  · have he := hfresh e hh
    simp [isAllowed, hh, show now > e.resetTime from he]

/-- C1, part of the statement: the state reached after the first (window-resetting)
admitted check. -/
lemma applyOp_maxRequests (rl : RateLimiter) (op : LimiterOp) :
    (applyOp rl op).maxRequests = rl.maxRequests := by
  cases op with
  | check now id => exact isAllowed_maxRequests rl now id
  | sweep now => rfl
  | getLimit now id =>
    show (getCurrentLimit rl now id).2.maxRequests = rl.maxRequests
    unfold getCurrentLimit
    cases rl.limits id with
    | none => rfl
    | some e =>
      dsimp only
      split <;> rfl
  | reset => rfl

lemma applyOp_inv (rl : RateLimiter) (op : LimiterOp)
    (hceil : 1 ≤ rl.maxRequests) (hinv : LimiterInv rl) :
    LimiterInv (applyOp rl op) := by
  intro id2 e2 h2
  rw [applyOp_maxRequests]
  revert h2
  cases op with
  | check now id =>
    intro h2
    replace h2 : ((isAllowed rl now id).2).limits id2 = some e2 := h2
    unfold isAllowed at h2
    rcases hh : rl.limits id with _ | e <;> rw [hh] at h2
    · dsimp only [mapSet] at h2
      by_cases hid : id2 = id
      · rw [if_pos hid] at h2
        cases h2
        exact ⟨le_refl 1, hceil⟩
      · rw [if_neg hid] at h2
        exact hinv id2 e2 h2
    · dsimp only at h2
      by_cases hexp : now > e.resetTime
      · rw [if_pos hexp] at h2
        dsimp only [mapSet] at h2
        by_cases hid : id2 = id
        · rw [if_pos hid] at h2
          cases h2
          exact ⟨le_refl 1, hceil⟩
        · rw [if_neg hid] at h2
          exact hinv id2 e2 h2
      · rw [if_neg hexp] at h2
        by_cases hge : e.count ≥ rl.maxRequests
        · rw [if_pos hge] at h2
          exact hinv id2 e2 h2
        · rw [if_neg hge] at h2
          dsimp only [mapSet] at h2
          by_cases hid : id2 = id
          · rw [if_pos hid] at h2
            cases h2
            have := (hinv id e hh).1
            constructor
            · dsimp only
              omega
            · dsimp only
              omega
          · rw [if_neg hid] at h2
            exact hinv id2 e2 h2
  | sweep now =>
    intro h2
    replace h2 : (cleanup rl now).limits id2 = some e2 := h2
    unfold cleanup at h2
    dsimp only at h2
    rcases hh : rl.limits id2 with _ | e <;> rw [hh] at h2
    · cases h2
    · dsimp only at h2
      by_cases hexp : now > e.resetTime
      · rw [if_pos hexp] at h2
        cases h2
      · rw [if_neg hexp] at h2
        cases h2
        exact hinv id2 e2 hh
  | getLimit now id =>
    intro h2
    replace h2 : ((getCurrentLimit rl now id).2).limits id2 = some e2 := h2
    unfold getCurrentLimit at h2
    rcases hh : rl.limits id with _ | e <;> rw [hh] at h2
    · exact hinv id2 e2 h2
    · dsimp only at h2
      by_cases hexp : now > e.resetTime
      · rw [if_pos hexp] at h2
        dsimp only at h2
        by_cases hid : id2 = id
        · rw [if_pos hid] at h2
          cases h2
        · rw [if_neg hid] at h2
          exact hinv id2 e2 h2
      · rw [if_neg hexp] at h2
        exact hinv id2 e2 h2
  | reset =>
    intro h2
    replace h2 : ((resetLimits rl).limits) id2 = some e2 := h2
    simp [resetLimits] at h2

lemma applyOps_inv (ops : List LimiterOp) :
    ∀ (rl : RateLimiter), 1 ≤ rl.maxRequests → LimiterInv rl →
      LimiterInv (applyOps rl ops) := by
  induction ops with
  | nil => intro rl _ hinv; exact hinv
  | cons op ops ih =>
    intro rl hceil hinv
    have hmax : 1 ≤ (applyOp rl op).maxRequests := by
      rw [applyOp_maxRequests]; exact hceil
    exact ih (applyOp rl op) hmax (applyOp_inv rl op hceil hinv)

/-- **C1.** For every identity and ceiling ≥ 1: a check when no entry exists
(or the entry has expired) is allowed, stores count 1 and
`resetTime = now + windowMs`, and returns `remaining = ceiling - 1`; after
the full `ceiling` admitted checks inside the window, one further check inside
the window is denied with `remaining = 0` and the limiter state (in particular
the entry's count and resetTime) unchanged. -/
theorem c1_fixed_window_ceiling (rl : RateLimiter) (id : String) (now : Int)
    (ts : List Int) (tlast : Int)
    (hceil : 1 ≤ rl.maxRequests)
    (hfresh : ∀ e, rl.limits id = some e → e.resetTime < now)
    (hlen : (ts.length : Int) + 1 = rl.maxRequests)
    (hts : ∀ t ∈ ts, t ≤ now + rl.windowMs)
    (hlast : tlast ≤ now + rl.windowMs) :
    (isAllowed rl now id).1.allowed = true ∧
    (isAllowed rl now id).1.remaining = rl.maxRequests - 1 ∧
    (isAllowed rl now id).1.resetTime = now + rl.windowMs ∧
    (isAllowed rl now id).2.limits id = some ⟨1, now + rl.windowMs⟩ ∧
    (∀ r ∈ (runChecks (isAllowed rl now id).2 id ts).1, r.allowed = true) ∧
    (isAllowed (runChecks (isAllowed rl now id).2 id ts).2 tlast id).1.allowed = false ∧
    (isAllowed (runChecks (isAllowed rl now id).2 id ts).2 tlast id).1.remaining = 0 ∧
    (isAllowed (runChecks (isAllowed rl now id).2 id ts).2 tlast id).2 =
      (runChecks (isAllowed rl now id).2 id ts).2 := by
  have hfirst := isAllowed_fresh rl now id hfresh
  rw [hfirst]
  dsimp only
  set rl1 : RateLimiter :=
    { rl with limits := mapSet rl.limits id ⟨1, now + rl.windowMs⟩ } with hrl1
  have hentry1 : rl1.limits id = some ⟨1, now + rl.windowMs⟩ := by
    simp [hrl1, mapSet]
  have hmid := runChecks_allowed id (now + rl.windowMs) ts rl1 1 hentry1 hts
    (by simp [hrl1]; omega)
  refine ⟨rfl, rfl, rfl, hentry1, hmid.1, ?_⟩
  have hcnt : (1 : Int) + ts.length = rl.maxRequests := by omega
  have hmax : (runChecks rl1 id ts).2.maxRequests = rl.maxRequests := by
    rw [hmid.2.2.1]
  have hdeny : isAllowed (runChecks rl1 id ts).2 tlast id =
      (⟨false, 0, now + rl.windowMs⟩, (runChecks rl1 id ts).2) := by
    unfold isAllowed
    rw [hmid.2.1]
    dsimp only
    rw [if_neg (by omega), if_pos (by rw [hmax]; omega)]
  rw [hdeny]
  exact ⟨rfl, rfl, rfl⟩

/-- Witness for C1: ceiling 2, checks at times 0, 10 admitted, third check at
time 20 denied. -/
theorem c1_fixed_window_ceiling_witness :
    (isAllowed rlEmptyTwo 0 "client").1.allowed = true ∧
    (isAllowed rlEmptyTwo 0 "client").1.remaining = rlEmptyTwo.maxRequests - 1 ∧
    (isAllowed rlEmptyTwo 0 "client").1.resetTime = 0 + rlEmptyTwo.windowMs ∧
    (isAllowed rlEmptyTwo 0 "client").2.limits "client" =
      some ⟨1, 0 + rlEmptyTwo.windowMs⟩ ∧
    (∀ r ∈ (runChecks (isAllowed rlEmptyTwo 0 "client").2 "client" [10]).1,
      r.allowed = true) ∧
    (isAllowed (runChecks (isAllowed rlEmptyTwo 0 "client").2 "client" [10]).2
      20 "client").1.allowed = false ∧
    (isAllowed (runChecks (isAllowed rlEmptyTwo 0 "client").2 "client" [10]).2
      20 "client").1.remaining = 0 ∧
    (isAllowed (runChecks (isAllowed rlEmptyTwo 0 "client").2 "client" [10]).2
      20 "client").2 =
      (runChecks (isAllowed rlEmptyTwo 0 "client").2 "client" [10]).2 :=
  c1_fixed_window_ceiling rlEmptyTwo "client" 0 [10] 20
    (by norm_num [rlEmptyTwo])
    (fun e h => nomatch h)
    (by norm_num [rlEmptyTwo])
    (by intro t htt; simp at htt; subst htt; norm_num [rlEmptyTwo])
    (by norm_num [rlEmptyTwo])

/-- **C10.** If the configured ceiling is at least 1 and the quota-table
invariant `1 ≤ count ≤ ceiling` holds, it is preserved by every sequence of
operations (`isAllowed`, `cleanup`, `getCurrentLimit`, `resetLimits`) in any
order, and every allowed `isAllowed` result has `remaining ≥ 0`. -/
theorem c10_quota_table_invariant (rl : RateLimiter)
    (hceil : 1 ≤ rl.maxRequests) (hinv : LimiterInv rl) :
    (∀ ops : List LimiterOp, LimiterInv (applyOps rl ops)) ∧
    (∀ now id, (isAllowed rl now id).1.allowed = true →
      0 ≤ (isAllowed rl now id).1.remaining) := by
  constructor
  · intro ops
    exact applyOps_inv ops rl hceil hinv
  · intro now id hallowed
    unfold isAllowed at hallowed ⊢
    rcases hh : rl.limits id with _ | e <;> rw [hh] at hallowed
    · dsimp only
      omega
    · dsimp only at hallowed ⊢
      by_cases hexp : now > e.resetTime
      · rw [if_pos hexp]
        dsimp only
        omega
      · rw [if_neg hexp] at hallowed ⊢
        by_cases hge : e.count ≥ rl.maxRequests
        · rw [if_pos hge] at hallowed
          cases hallowed
        · rw [if_neg hge]
          dsimp only
          omega

/-- Witness for C10 at the concrete limiter `rlEmptyTwo`. -/
theorem c10_quota_table_invariant_witness :
    (∀ ops : List LimiterOp, LimiterInv (applyOps rlEmptyTwo ops)) ∧
    (∀ now id, (isAllowed rlEmptyTwo now id).1.allowed = true →
      0 ≤ (isAllowed rlEmptyTwo now id).1.remaining) :=
  c10_quota_table_invariant rlEmptyTwo (by norm_num [rlEmptyTwo])
    (fun id e h => nomatch h)

/-! ### Safety scorer lemmas -/

lemma filter_length_mono {α : Type} (l : List α) (p q : α → Bool)
    (h : ∀ x ∈ l, p x = true → q x = true) :
    (l.filter p).length ≤ (l.filter q).length := by
  induction l with
  | nil => simp
  | cons a l ih =>
    have ih' := ih (fun x hx hp => h x (List.mem_cons_of_mem a hx) hp)
    by_cases hp : p a = true
    · have hq := h a (List.mem_cons_self a l) hp
      simp only [List.filter_cons, hp, hq, if_pos, List.length_cons]
      omega
    · simp only [List.filter_cons]
      rw [if_neg (by simpa using hp)]
      by_cases hq : q a = true
      · rw [if_pos (by simpa using hq)]
        simp only [List.length_cons]
        omega
      · rw [if_neg (by simpa using hq)]
        exact ih'

lemma scanPattern_foldl (content category : String) (pats : List (List String)) :
    ∀ st : ScanState,
      (pats.foldl (scanPattern content category) st).score =
        st.score - 20 * (pats.filter (fun alts => testPattern alts content)).length ∧
      (pats.foldl (scanPattern content category) st).issues.length =
        st.issues.length + (pats.filter (fun alts => testPattern alts content)).length ∧
      (pats.foldl (scanPattern content category) st).suggestions.length =
        st.suggestions.length +
          (pats.filter (fun alts => testPattern alts content)).length *
            (categorySuggestion category).length ∧
      (pats.foldl (scanPattern content category) st).flagged =
        (st.flagged ||
          decide (0 < (pats.filter (fun alts => testPattern alts content)).length)) := by
  induction pats with
  | nil => intro st; simp
  | cons alts pats ih =>
    intro st
    by_cases hm : testPattern alts content = true
    · have ih' := ih (scanPattern content category st alts)
      have hsc : (scanPattern content category st alts).score = st.score - 20 := by
        simp [scanPattern, hm]
      have his : (scanPattern content category st alts).issues.length =
          st.issues.length + 1 := by
        simp [scanPattern, hm]
      have hsu : (scanPattern content category st alts).suggestions.length =
          st.suggestions.length + (categorySuggestion category).length := by
        simp [scanPattern, hm]
      have hfl : (scanPattern content category st alts).flagged = true := by
        simp [scanPattern, hm]
      simp only [List.foldl_cons, List.filter_cons, hm, if_pos, List.length_cons]
      refine ⟨?_, ?_, ?_, ?_⟩
      · rw [ih'.1, hsc]
        push_cast
        ring
      · rw [ih'.2.1, his]
        omega
      · rw [ih'.2.2.1, hsu]
        ring
      · rw [ih'.2.2.2, hfl]
        simp
    · have ih' := ih st
      have hid : scanPattern content category st alts = st := by
        simp [scanPattern, hm]
      simp only [List.foldl_cons, List.filter_cons]
      rw [if_neg (by simpa using hm), hid]
      exact ih'

lemma scanCats_foldl (content : String)
    (cats : List (String × List (List String)))
    (hsug : ∀ c ∈ cats, (categorySuggestion c.1).length = 1) :
    ∀ st : ScanState,
      (cats.foldl (scanCategory content) st).score =
        st.score - 20 * matchCountCats content cats ∧
      (cats.foldl (scanCategory content) st).issues.length =
        st.issues.length + matchCountCats content cats ∧
      (cats.foldl (scanCategory content) st).suggestions.length =
        st.suggestions.length + matchCountCats content cats ∧
      (cats.foldl (scanCategory content) st).flagged =
        (st.flagged || decide (0 < matchCountCats content cats)) := by
  induction cats with
  | nil => intro st; simp [matchCountCats]
  | cons cat cats ih =>
    intro st
    have hpat := scanPattern_foldl content cat.1 cat.2 st
    have hsug1 : (categorySuggestion cat.1).length = 1 :=
      hsug cat (List.mem_cons_self cat cats)
    have ih' := ih (fun c hc => hsug c (List.mem_cons_of_mem cat hc))
      (cat.2.foldl (scanPattern content cat.1) st)
    simp only [List.foldl_cons, matchCountCats, scanCategory]
    refine ⟨?_, ?_, ?_, ?_⟩
    · rw [ih'.1, hpat.1]
      push_cast
      ring
    · rw [ih'.2.1, hpat.2.1]
      omega
    · rw [ih'.2.2.1, hpat.2.2.1, hsug1]
      omega
    · rw [ih'.2.2.2, hpat.2.2.2, Bool.or_assoc]
      congr 1
      by_cases ha : 0 < (cat.2.filter (fun alts => testPattern alts content)).length
      · have hb : 0 < (cat.2.filter (fun alts => testPattern alts content)).length +
            matchCountCats content cats := by omega
        simp [ha, hb]
      · have ha0 : (cat.2.filter (fun alts => testPattern alts content)).length = 0 := by
          omega
        simp only [ha0]
        simp

lemma applyLengthCheck_facts (wc : Nat) (st : ScanState) :
    (applyLengthCheck wc st).score = st.score - lengthPenalty wc ∧
    (applyLengthCheck wc st).issues.length = st.issues.length + lengthIssueCount wc ∧
    (applyLengthCheck wc st).suggestions.length =
      st.suggestions.length + lengthIssueCount wc ∧
    (applyLengthCheck wc st).flagged = st.flagged := by
  unfold applyLengthCheck lengthPenalty lengthIssueCount
  split_ifs <;> simp

lemma applyMythCheck_facts (b : Bool) (st : ScanState) :
    (applyMythCheck b st).score = st.score - (if b then 0 else 25) ∧
    (applyMythCheck b st).issues.length =
      st.issues.length + (if b then 0 else 1) ∧
    (applyMythCheck b st).suggestions.length =
      st.suggestions.length + (if b then 0 else 1) ∧
    (applyMythCheck b st).flagged = st.flagged := by
  cases b <;> simp [applyMythCheck]

lemma scanPatterns_facts (content : String) :
    (scanPatterns content).score = 100 - 20 * matchCount content ∧
    (scanPatterns content).issues.length = matchCount content ∧
    (scanPatterns content).suggestions.length = matchCount content ∧
    (scanPatterns content).flagged = decide (0 < matchCount content) := by
  have h := scanCats_foldl content INAPPROPRIATE_PATTERNS
    (by intro c hc; fin_cases hc <;> rfl) ⟨100, false, [], []⟩
  unfold scanPatterns matchCount
  refine ⟨h.1, by rw [h.2.1]; simp, by rw [h.2.2.1]; simp, by rw [h.2.2.2]; simp⟩

lemma checkContentSafety_closed (content : String) :
    (checkContentSafety content).score = max 0 (rawSafetyScore content) ∧
    (checkContentSafety content).safe = decide (70 ≤ rawSafetyScore content) ∧
    (checkContentSafety content).issues.length =
      matchCount content + lengthIssueCount (jsWordCount content) +
        mythIssueCount content ∧
    (checkContentSafety content).suggestions.length =
      matchCount content + lengthIssueCount (jsWordCount content) +
        mythIssueCount content ∧
    (checkContentSafety content).flagged = decide (0 < matchCount content) := by
  have h1 := scanPatterns_facts content
  have h2 := applyLengthCheck_facts (jsWordCount content) (scanPatterns content)
  have h3 := applyMythCheck_facts (checkMythologicalRelevance (strToLower content))
    (applyLengthCheck (jsWordCount content) (scanPatterns content))
  have hraw : rawSafetyScore content =
      (applyMythCheck (checkMythologicalRelevance (strToLower content))
        (applyLengthCheck (jsWordCount content) (scanPatterns content))).score := by
    rw [h3.1, h2.1, h1.1]
    unfold rawSafetyScore mythPenalty
    omega
  have hiss : matchCount content + lengthIssueCount (jsWordCount content) +
      mythIssueCount content =
      (applyMythCheck (checkMythologicalRelevance (strToLower content))
        (applyLengthCheck (jsWordCount content) (scanPatterns content))).issues.length := by
    rw [h3.2.1, h2.2.1, h1.2.1]
    unfold mythIssueCount
    omega
  have hsug : matchCount content + lengthIssueCount (jsWordCount content) +
      mythIssueCount content =
      (applyMythCheck (checkMythologicalRelevance (strToLower content))
        (applyLengthCheck (jsWordCount content) (scanPatterns content))).suggestions.length := by
    rw [h3.2.2.1, h2.2.2.1, h1.2.2.1]
    unfold mythIssueCount
    omega
  unfold checkContentSafety
  dsimp only
  refine ⟨?_, ?_, ?_, ?_, h1.2.2.2⟩
  · rw [hraw]
  · simp only [← hraw]
  · rw [← hiss]
  · rw [← hsug]

/-! ### Monotonicity of the pattern matcher under appending -/

lemma boundaryAfter_headBoundaryOk (l : List Char) :
    boundaryAfter l = headBoundaryOk l := by
  cases l <;> rfl

lemma charsMatch_nil (l : List Char) : charsMatch [] l = true := by
  cases l <;> rfl

lemma charsMatch_append (pat : List Char) :
    ∀ l m : List Char, charsMatch pat l = true → charsMatch pat (l ++ m) = true := by
  induction pat with
  | nil => intro l m _; rfl
  | cons p ps ih =>
    intro l m h
    cases l with
    | nil => cases h
    | cons c cs =>
      simp only [charsMatch, Bool.and_eq_true] at h ⊢
      exact ⟨h.1, ih cs m h.2⟩

lemma charsMatch_length {pat : List Char} :
    ∀ {l : List Char}, charsMatch pat l = true → pat.length ≤ l.length := by
  induction pat with
  | nil => intro l _; simp
  | cons p ps ih =>
    intro l h
    cases l with
    | nil => cases h
    | cons c cs =>
      simp only [charsMatch, Bool.and_eq_true] at h
      simp only [List.length_cons]
      have := ih h.2
      omega

lemma boundaryAfter_append (x m : List Char) (hm : headBoundaryOk m = true)
    (hx : boundaryAfter x = true) : boundaryAfter (x ++ m) = true := by
  cases x with
  | nil => simpa [boundaryAfter, headBoundaryOk] using hm
  | cons c cs => simpa [boundaryAfter] using hx

lemma findWordMatch_append (pat m : List Char) (hm : headBoundaryOk m = true) :
    ∀ (l : List Char) (prev : Option Char),
      findWordMatch pat prev l = true → findWordMatch pat prev (l ++ m) = true := by
  intro l
  induction l with
  | nil =>
    intro prev h
    rw [findWordMatch] at h
    simp only [Bool.or_eq_true, Bool.and_eq_true] at h
    rcases h with ⟨⟨hb, hc⟩, _⟩ | h
    · cases pat with
      | nil =>
        simp only [List.nil_append]
        rw [findWordMatch.eq_def]
        simp only [Bool.or_eq_true, Bool.and_eq_true]
        left
        refine ⟨⟨hb, charsMatch_nil m⟩, ?_⟩
        rw [List.length_nil, List.drop_zero, boundaryAfter_headBoundaryOk]
        exact hm
      | cons p ps => cases hc
    · cases h
  | cons c cs ih =>
    intro prev h
    rw [findWordMatch] at h
    simp only [Bool.or_eq_true, Bool.and_eq_true] at h
    rw [List.cons_append, findWordMatch]
    simp only [Bool.or_eq_true, Bool.and_eq_true]
    rcases h with ⟨⟨hb, hc⟩, ha⟩ | h
    · left
      refine ⟨⟨hb, charsMatch_append pat (c :: cs) m hc⟩, ?_⟩
      have hlen : pat.length ≤ (c :: cs).length := charsMatch_length hc
      rw [← List.cons_append, List.drop_append_of_le_length hlen]
      exact boundaryAfter_append _ m hm ha
    · right
      exact ih (some c) h

lemma strToLower_append (s t : String) :
    (strToLower (s ++ t)).data = (strToLower s).data ++ (strToLower t).data := by
  simp [strToLower, String.data_append]

lemma testPattern_append (alts : List String) (s t : String)
    (hsep : beginsNonWord t = true) (h : testPattern alts s = true) :
    testPattern alts (s ++ t) = true := by
  unfold testPattern at h ⊢
  simp only [List.any_eq_true] at h ⊢
  rcases h with ⟨a, ha, hmatch⟩
  refine ⟨a, ha, ?_⟩
  rw [strToLower_append]
  exact findWordMatch_append a.data (strToLower t).data hsep _ none hmatch

lemma matchCountCats_mono (s t : String) (hsep : beginsNonWord t = true)
    (cats : List (String × List (List String))) :
    matchCountCats s cats ≤ matchCountCats (s ++ t) cats := by
  induction cats with
  | nil => simp [matchCountCats]
  | cons cat cats ih =>
    simp only [matchCountCats]
    have hf := filter_length_mono cat.2
      (fun alts => testPattern alts s) (fun alts => testPattern alts (s ++ t))
      (fun alts _ halts => testPattern_append alts s t hsep halts)
    omega

lemma matchCount_mono (s t : String) (hsep : beginsNonWord t = true) :
    matchCount s ≤ matchCount (s ++ t) := by
  unfold matchCount
  exact matchCountCats_mono s t hsep INAPPROPRIATE_PATTERNS

/-! ### C3 and C4 -/

/-- **C4, counterexample.** The text "kill war krishna" matches both violence
matchers (and nothing else, with no length or relevance deduction), yet scores
60 with two violence issues — the deduction is 20 per matching pattern, not 20
per matching category (which would give 80 and one issue). -/
theorem c4_counterexample :
    matchCount "kill war krishna" = 2 ∧
    lengthPenalty (jsWordCount "kill war krishna") = 0 ∧
    mythPenalty "kill war krishna" = 0 ∧
    (checkContentSafety "kill war krishna").score = 60 ∧
    (checkContentSafety "kill war krishna").issues =
      ["Contains violence content", "Contains violence content"] := by
  decide

/-- **C4, amended.** Every individual matching pattern matcher incurs one
20-point deduction and appends one issue/suggestion pair (so a category with
several matching matchers deducts once per matcher); deductions from the
word-count and relevance checks compound additively; the verdict is
`safe = (score ≥ 70)` with the reported score floored at 0. -/
theorem c4_per_pattern_deduction (content : String) :
    (checkContentSafety content).score =
      max 0 (100 - 20 * (matchCount content : Int) -
        lengthPenalty (jsWordCount content) - mythPenalty content) ∧
    (checkContentSafety content).safe =
      decide ((70 : Int) ≤ 100 - 20 * (matchCount content : Int) -
        lengthPenalty (jsWordCount content) - mythPenalty content) ∧
    (checkContentSafety content).issues.length =
      matchCount content + lengthIssueCount (jsWordCount content) +
        mythIssueCount content ∧
    (checkContentSafety content).suggestions.length =
      matchCount content + lengthIssueCount (jsWordCount content) +
        mythIssueCount content := by
  obtain ⟨h1, h2, h3, h4, _⟩ := checkContentSafety_closed content
  exact ⟨h1, h2, h3, h4⟩

/-- **C3, counterexample.** "a beautiful sunny day" passes with score 75; the
appended phrase " krishna kill" matches a violence matcher, yet the extended
text scores 80: the phrase also introduces the mythological keyword "krishna",
removing the 25-point relevance deduction while adding only 20. -/
theorem c3_counterexample :
    70 ≤ (checkContentSafety "a beautiful sunny day").score ∧
    0 < matchCount " krishna kill" ∧
    (checkContentSafety "a beautiful sunny day").score <
      (checkContentSafety ("a beautiful sunny day" ++ " krishna kill")).score := by
  decide

/-- **C3, amended.** Appending a word-separated phrase that matches an
unsafe-category matcher never increases the score, provided the append changes
neither the word-count deduction band nor the mythological-relevance
determination. -/
theorem c3_monotonic_stable_context (s t : String)
    (hpass : 70 ≤ (checkContentSafety s).score)
    (hmatch : 0 < matchCount t)
    (hsep : beginsNonWord t = true)
    (hlen : lengthPenalty (jsWordCount (s ++ t)) = lengthPenalty (jsWordCount s))
    (hmyth : checkMythologicalRelevance (strToLower (s ++ t)) =
      checkMythologicalRelevance (strToLower s)) :
    (checkContentSafety (s ++ t)).score ≤ (checkContentSafety s).score := by
  rw [(checkContentSafety_closed s).1, (checkContentSafety_closed (s ++ t)).1]
  have hmono : (matchCount s : Int) ≤ matchCount (s ++ t) := by
    exact_mod_cast matchCount_mono s t hsep
  have hmythpen : mythPenalty (s ++ t) = mythPenalty s := by
    unfold mythPenalty
    rw [hmyth]
  have hle : rawSafetyScore (s ++ t) ≤ rawSafetyScore s := by
    unfold rawSafetyScore
    rw [hlen, hmythpen]
    omega
  exact max_le_max (le_refl 0) hle

/-- Witness for C3 (amended): appending " kill" to "a beautiful sunny day"
does not increase the score. -/
theorem c3_monotonic_stable_context_witness :
    (checkContentSafety ("a beautiful sunny day" ++ " kill")).score ≤
      (checkContentSafety "a beautiful sunny day").score :=
  c3_monotonic_stable_context "a beautiful sunny day" " kill"
    (by decide) (by decide) (by decide) (by decide) (by decide)

/-! ## Script structural validation (`lib/ai-client.ts`) -/

/-- **C2, counterexample.** A script with non-empty narration and
visual-description but with the dialogue field absent is rejected by
`validateScriptStructure` (because of the `typeof script.dialogue === 'string'`
conjunct), contradicting "accepts ... regardless of whether the optional
dialogue field is present or absent". -/
theorem c2_counterexample :
    "The tale unfolds.".length > 0 ∧
    "A grand temple at dawn.".length > 0 ∧
    validateScriptStructure
      ⟨some "The tale unfolds.", none, some "A grand temple at dawn."⟩ = false := by
  decide

/-- **C2, amended.** Structural validation accepts a script exactly when the
narration and visual-description fields are present, string-typed and
non-empty AND the dialogue field is present as a string (possibly empty); in
particular a script whose dialogue field is absent or not a string is
rejected even when the other two fields are non-empty. -/
theorem c2_structural_validation (script : ScriptObj) :
    validateScriptStructure script = true ↔
      (∃ nc, script.narrator_caption = some nc ∧ nc.length > 0) ∧
      (∃ d, script.dialogue = some d) ∧
      (∃ imgd, script.image_description = some imgd ∧ imgd.length > 0) := by
  obtain ⟨nc, d, imgd⟩ := script
  cases nc <;> cases d <;> cases imgd <;>
    simp [validateScriptStructure]

/-! ## Mock (degraded-mode) generators (`lib/ai-client.ts`) -/

set_option maxHeartbeats 2000000 in
/-- **C6.** Degraded-mode generation is deterministic and total: equal inputs
give equal (always-defined) results, and every mock script is structurally
valid (non-empty narration and visual description, string dialogue). -/
theorem c6_mock_mode_deterministic_and_valid
    (scene sceneType prompt styleType : String) :
    generateMockScript scene sceneType = generateMockScript scene sceneType ∧
    generateMockImage prompt styleType = generateMockImage prompt styleType ∧
    validateScriptStructure (toScriptObj (generateMockScript scene sceneType)) = true := by
  refine ⟨rfl, rfl, ?_⟩
  unfold generateMockScript
  dsimp only
  split_ifs <;> decide

/-! ## Quality validation (`lib/quality-validation.ts`) -/

/-- **C5.** The rule-table weights sum to 1, the reported quality score is the
rounded weighted sum of the four dimension scores with weights 0.30, 0.25,
0.25, 0.20, and the verdict is `valid = (aggregate ≥ 70)` on the pre-rounding
aggregate. -/
theorem c5_weighted_aggregate (script : ScriptObj) (scene : String) :
    ((0.3 : ℚ) + 0.25 + 0.25 + 0.2 = 1) ∧
    (validateQuality script scene).score =
      round ((0.3 : ℚ) * ((validateQuality script scene).mythologicalAccuracy : ℚ) +
        0.25 * ((validateQuality script scene).visualCoherence : ℚ) +
        0.25 * ((validateQuality script scene).culturalAuthenticity : ℚ) +
        0.2 * ((validateQuality script scene).storytellingQuality : ℚ)) ∧
    (validateQuality script scene).valid =
      decide (70 ≤ (0.3 : ℚ) * ((validateQuality script scene).mythologicalAccuracy : ℚ) +
        0.25 * ((validateQuality script scene).visualCoherence : ℚ) +
        0.25 * ((validateQuality script scene).culturalAuthenticity : ℚ) +
        0.2 * ((validateQuality script scene).storytellingQuality : ℚ)) := by
  refine ⟨by norm_num, ?_, ?_⟩
  · unfold validateQuality VALIDATION_RULES
    simp only [List.foldl_cons, List.foldl_nil, List.nil_append, List.cons_append]
    norm_num
    congr 1
    ring
  · unfold validateQuality VALIDATION_RULES
    simp only [List.foldl_cons, List.foldl_nil, List.nil_append, List.cons_append]
    norm_num
    constructor <;> intro h <;> linarith

lemma charsMatch_subset (pat l : List Char) (h : charsMatch pat l = true) :
    ∀ x ∈ pat, x ∈ l := by
  induction pat generalizing l with
  | nil => intro x hx; cases hx
  | cons p ps ih =>
    cases l with
    | nil => cases h
    | cons c cs =>
      simp only [charsMatch, Bool.and_eq_true, decide_eq_true_eq] at h
      intro x hx
      rcases List.mem_cons.mp hx with rfl | hx
      · rw [h.1]
        exact List.mem_cons_self c cs
      · exact List.mem_cons_of_mem c (ih cs h.2 x hx)

lemma listContainsSub_subset (pat l : List Char)
    (h : listContainsSub pat l = true) : ∀ x ∈ pat, x ∈ l := by
  induction l with
  | nil =>
    rw [listContainsSub] at h
    exact charsMatch_subset pat [] h
  | cons c cs ih =>
    rw [listContainsSub] at h
    simp only [Bool.or_eq_true] at h
    rcases h with h | h
    · exact charsMatch_subset pat (c :: cs) h
    · intro x hx
      exact List.mem_cons_of_mem c (ih h x hx)

/-! ### C9 -/

/-- **C9, counterexample.** No single fixed pair of terms reproduces the
detector: both "st" and "mo" are flagged, so such terms would have to be
substrings of both, forcing them empty, and then "a" would be flagged too —
but it is not. -/
theorem c9_counterexample :
    ¬ ∃ a b : String, ∀ desc : String,
        hasLogicalInconsistencies desc = true ↔
          (strIncludes desc a = true ∧ strIncludes desc b = true) := by
  rintro ⟨a, b, h⟩
  have hst : hasLogicalInconsistencies "st" = true := by decide
  have hmo : hasLogicalInconsistencies "mo" = true := by decide
  obtain ⟨ha1, hb1⟩ := (h "st").mp hst
  obtain ⟨ha2, hb2⟩ := (h "mo").mp hmo
  have hsub : ∀ (x : String), strIncludes "st" x = true → strIncludes "mo" x = true →
      x.data = [] := by
    intro x h1 h2
    cases hx : x.data with
    | nil => rfl
    | cons c cs =>
      exfalso
      have m1 : c ∈ "st".data := by
        have := listContainsSub_subset x.data "st".data (by
          unfold strIncludes at h1
          exact h1)
        rw [hx] at this
        exact this c (List.mem_cons_self c cs)
      have m2 : c ∈ "mo".data := by
        have := listContainsSub_subset x.data "mo".data (by
          unfold strIncludes at h2
          exact h2)
        rw [hx] at this
        exact this c (List.mem_cons_self c cs)
      have e1 : c = 's' ∨ c = 't' := by
        have : "st".data = ['s', 't'] := by decide
        rw [this] at m1
        simpa using m1
      have e2 : c = 'm' ∨ c = 'o' := by
        have : "mo".data = ['m', 'o'] := by decide
        rw [this] at m2
        simpa using m2
      rcases e1 with rfl | rfl <;> rcases e2 with h' | h' <;> cases h'
  have hadata : a.data = [] := hsub a ha1 ha2
  have hbdata : b.data = [] := hsub b hb1 hb2
  have hempty : ∀ (x : String), x.data = [] → strIncludes "a" x = true := by
    intro x hx
    unfold strIncludes
    rw [hx]
    decide
  have := (h "a").mpr ⟨hempty a hadata, hempty b hbdata⟩
  have hfalse : hasLogicalInconsistencies "a" = false := by decide
  rw [hfalse] at this
  cases this

/-- **C9, amended.** The detector ignores the listed term pairs entirely: the
`&&` of two string literals evaluates to the second, and destructuring a
string takes its first two characters, so the detector flags a description
exactly when its lowercased text contains both characters of one of the three
fixed character pairs ('s','t'), ('m','o'), ('f','i'). -/
theorem c9_character_pairs (desc : String) :
    hasLogicalInconsistencies desc =
      (((strToLower desc).data.contains 's' && (strToLower desc).data.contains 't') ||
       ((strToLower desc).data.contains 'm' && (strToLower desc).data.contains 'o') ||
       ((strToLower desc).data.contains 'f' && (strToLower desc).data.contains 'i')) := by
  simp [hasLogicalInconsistencies, inconsistencies, jsAnd, Bool.or_assoc]

/-! ## Script-stage API handler (`app/api/generate-script/route.ts`) -/

/-- **C7, counterexample.** The empty scene has (by the route's own metric)
word count 1, outside 3–20, yet the handler returns the required-field error,
not the word-count error. -/
theorem c7_counterexample :
    jsWordCount (jsTrim "") < 3 ∧
    (generateScriptPOST rlEmptyTwo 0 "ip" "" (.ok true)
      (.ok ⟨"n", "d", "i"⟩)).response = .missingScene ∧
    (ScriptApiResponse.missingScene ≠ ScriptApiResponse.badWordCount) := by
  refine ⟨by decide, by decide, by decide⟩

/-- **C7, amended.** For every request whose trimmed scene text is non-empty
and has word count outside 3–20, the handler returns the word-count
validation error (not a rate-limit or failure code), leaves the quota state
untouched, and makes neither the safety nor the generation provider call.
(An entirely empty scene is instead rejected by the earlier required-field
check, equally before admission and any provider call.) -/
theorem c7_word_count_rejected_before_admission (rl : RateLimiter) (now : Int)
    (clientIP scene : String) (safety : SafetyOutcome) (gen : GenOutcome)
    (hne : (jsTrim scene).length ≠ 0)
    (hwc : jsWordCount (jsTrim scene) < 3 ∨ jsWordCount (jsTrim scene) > 20) :
    (generateScriptPOST rl now clientIP scene safety gen).response = .badWordCount ∧
    (generateScriptPOST rl now clientIP scene safety gen).limiter = rl ∧
    (generateScriptPOST rl now clientIP scene safety gen).safetyCalled = false ∧
    (generateScriptPOST rl now clientIP scene safety gen).generateCalled = false := by
  unfold generateScriptPOST
  rw [if_neg hne]
  dsimp only
  rw [if_pos (by
    rcases hwc with h | h
    · simp [h]
    · simp [h])]
  exact ⟨rfl, rfl, rfl, rfl⟩

/-- Witness for C7 (amended) at the one-word scene "go". -/
theorem c7_word_count_rejected_before_admission_witness :
    (generateScriptPOST rlEmptyTwo 0 "ip" "go" (.ok true)
      (.ok ⟨"n", "d", "i"⟩)).response = .badWordCount ∧
    (generateScriptPOST rlEmptyTwo 0 "ip" "go" (.ok true)
      (.ok ⟨"n", "d", "i"⟩)).limiter = rlEmptyTwo ∧
    (generateScriptPOST rlEmptyTwo 0 "ip" "go" (.ok true)
      (.ok ⟨"n", "d", "i"⟩)).safetyCalled = false ∧
    (generateScriptPOST rlEmptyTwo 0 "ip" "go" (.ok true)
      (.ok ⟨"n", "d", "i"⟩)).generateCalled = false :=
  c7_word_count_rejected_before_admission rlEmptyTwo 0 "ip" "go"
    (.ok true) (.ok ⟨"n", "d", "i"⟩) (by decide) (by decide)

/-- **C8.** A fault in the safety check fails open: the handler behaves
exactly as if the verdict had been "safe" (in particular generation
proceeds), and the response is never the unsafe-input rejection. -/
theorem c8_safety_fault_fails_open (rl : RateLimiter) (now : Int)
    (clientIP scene : String) (gen : GenOutcome) :
    generateScriptPOST rl now clientIP scene .fault gen =
      generateScriptPOST rl now clientIP scene (.ok true) gen ∧
    (generateScriptPOST rl now clientIP scene .fault gen).response ≠
      .unsafeInput := by
  constructor
  · rfl
  · unfold generateScriptPOST
    split
    · simp
    · dsimp only
      split
      · simp
      · split
        · simp
        · unfold afterSafetyGate
          cases gen <;> simp
